import Mathlib

/-!
A shallow embedding of the AI-courtroom debate application
(src/defense_team.py, src/prosecution_team.py, src/judge.py, src/utils.py,
src/interface.py), together with theorems settling the specification claims
about its orchestration, error handling and parsing behaviour.

External boundaries (language-model completion, Tavily search, environment
variables) are modelled as explicit oracle functions.  A raised Python
exception at a boundary is an `Except.error`; an agent method that can let
an exception escape returns `Except`, while one that always returns a value
returns a plain value.  A Tavily search result record is modelled by its
content string, the only field the program ever reads; a search response is
modelled by the presence of its results field (`resp.get('results', [])`)
and those content strings.  Dynamic Python values produced by `json.loads`
are modelled by the inductive type `PyVal`.
-/

instance {ε α : Type} [DecidableEq ε] [DecidableEq α] : DecidableEq (Except ε α)
  | .ok a, .ok b =>
    if h : a = b then .isTrue (by rw [h]) else .isFalse (by simp [h])
  | .ok _, .error _ => .isFalse (by simp)
  | .error _, .ok _ => .isFalse (by simp)
  | .error a, .error b =>
    if h : a = b then .isTrue (by rw [h]) else .isFalse (by simp [h])

/-- Does the character list start with the given pattern list? -/
def starts_with : List Char → List Char → Bool
  | _, [] => true
  | [], _ :: _ => false
  | c :: cs, p :: ps => c = p && starts_with cs ps

/-- Fuel-driven worker for `py_split`: splits `rest` at every occurrence of
the (non-empty) separator `sep`, with `acc` holding the reversed current
chunk. -/
def split_chars_aux (sep : List Char) : Nat → List Char → List Char → List (List Char)
  | _, acc, [] => [acc.reverse]
  | 0, acc, l => [acc.reverse ++ l]
  | fuel+1, acc, c :: cs =>
    if starts_with (c :: cs) sep then
      acc.reverse :: split_chars_aux sep fuel [] ((c :: cs).drop sep.length)
    else
      split_chars_aux sep fuel (c :: acc) cs

/-- Python `s.split(sep)` for a non-empty separator: every non-overlapping
occurrence of `sep` separates two chunks, scanning left to right. -/
def py_split (s sep : String) : List String :=
  (split_chars_aux sep.toList (s.toList.length + 1) [] s.toList).map (fun l => String.mk l)

/-- Python `sub in s` for a non-empty `sub`: the split at `sub` has at
least two chunks exactly when `sub` occurs in `s`. -/
def contains_substr (sub s : String) : Bool :=
  decide (2 ≤ (py_split s sub).length)

/-- Python truthiness of an optional string (`None` and `""` are falsy). -/
def py_truthy (v : Option String) : Bool :=
  match v with
  | some s => s ≠ ""
  | none => false

/-- Python `v if v else d` on an optional string. -/
def py_or_else (v : Option String) (d : String) : String :=
  match v with
  | some s => if s = "" then d else s
  | none => d

/-- A Python value as produced by `json.loads` (floats are outside the
model: the affected code only ever handles lists, strings and integers). -/
inductive PyVal where
  | pyNone
  | bool (b : Bool)
  | int (n : Int)
  | str (s : String)
  | list (xs : List PyVal)
  | dict (kvs : List (String × PyVal))
deriving Repr, Inhabited

/-- A raised Python exception: a `TypeError` raised by the interpreter
itself, or an exception raised by an external boundary. -/
inductive PyError where
  | typeError (msg : String)
  | raised (msg : String)
deriving Repr, DecidableEq

/-- Python iteration `for x in v`: strings yield their characters as
one-character strings, lists their elements, dicts their keys; other
values raise `TypeError`. -/
def pyIter : PyVal → Except PyError (List PyVal)
  | .str s => .ok (s.toList.map (fun c => PyVal.str (String.mk [c])))
  | .list xs => .ok xs
  | .dict kvs => .ok (kvs.map (fun kv => PyVal.str kv.1))
  | .int _ => .error (.typeError "\x27int\x27 object is not iterable")
  | .bool _ => .error (.typeError "\x27bool\x27 object is not iterable")
  | .pyNone => .error (.typeError "\x27NoneType\x27 object is not iterable")

mutual

/-- Python `str(v)` as used by f-string interpolation. -/
def py_str : PyVal → String
  | .str s => s
  | v => py_repr v

/-- Python `repr(v)` (string escaping inside reprs is immaterial here). -/
def py_repr : PyVal → String
  | .pyNone => "None"
  | .bool b => if b then "True" else "False"
  | .int n => toString n
  | .str s => "\x27" ++ s ++ "\x27"
  | .list xs => "[" ++ String.intercalate ", " (py_repr_list xs) ++ "]"
  | .dict kvs => "\x7b" ++ String.intercalate ", " (py_repr_members kvs) ++ "\x7d"

def py_repr_list : List PyVal → List String
  | [] => []
  | x :: xs => py_repr x :: py_repr_list xs

def py_repr_members : List (String × PyVal) → List String
  | [] => []
  | kv :: kvs => ("\x27" ++ kv.1 ++ "\x27: " ++ py_repr kv.2) :: py_repr_members kvs

end

/-- JSON string escape for one character. -/
def json_escape_char (c : Char) : String :=
  if c = '"' then "\\\""
  else if c = '\\' then "\\\\"
  else if c = '\n' then "\\n"
  else if c = '\t' then "\\t"
  else if c = '\r' then "\\r"
  else String.mk [c]

def json_escape (s : String) : String :=
  String.join (s.toList.map json_escape_char)

def indent_sp (n : Nat) : String :=
  String.mk (List.replicate n ' ')

mutual

/-- Python `json.dumps(v, indent=2)` at nesting depth `ind` spaces. -/
def json_dump_v : Nat → PyVal → String
  | _, .pyNone => "null"
  | _, .bool b => if b then "true" else "false"
  | _, .int n => toString n
  | _, .str s => "\"" ++ json_escape s ++ "\""
  | _, .list [] => "[]"
  | ind, .list (x :: xs) =>
    "[\n" ++ String.intercalate ",\n" (json_dump_list (ind + 2) (x :: xs)) ++
      "\n" ++ indent_sp ind ++ "]"
  | _, .dict [] => "\x7b\x7d"
  | ind, .dict (kv :: kvs) =>
    "\x7b\n" ++ String.intercalate ",\n" (json_dump_members (ind + 2) (kv :: kvs)) ++
      "\n" ++ indent_sp ind ++ "\x7d"

def json_dump_list : Nat → List PyVal → List String
  | _, [] => []
  | ind, x :: xs => (indent_sp ind ++ json_dump_v ind x) :: json_dump_list ind xs

def json_dump_members : Nat → List (String × PyVal) → List String
  | _, [] => []
  | ind, kv :: kvs =>
    (indent_sp ind ++ "\"" ++ json_escape kv.1 ++ "\": " ++ json_dump_v ind kv.2) ::
      json_dump_members ind kvs

end

/-- JSON string escape sequences recognised by the decoder. -/
def escChar (c : Char) : Option Char :=
  if c = 'n' then some '\n'
  else if c = 't' then some '\t'
  else if c = 'r' then some '\r'
  else if c = 'b' then some (Char.ofNat 8)
  else if c = 'f' then some (Char.ofNat 12)
  else if c = '"' || c = '\\' || c = '/' then some c
  else none

def json_ws (c : Char) : Bool :=
  c = ' ' || c = '\n' || c = '\t' || c = '\r'

def skipWs : List Char → List Char
  | [] => []
  | c :: cs => if json_ws c then skipWs cs else c :: cs

/-- Decode a JSON string body up to the closing quote. -/
def parseStrBody : Nat → List Char → Option (List Char × List Char)
  | 0, _ => none
  | _, [] => none
  | fuel+1, c :: rest =>
    if c = '"' then some ([], rest)
    else if c = '\\' then
      match rest with
      | [] => none
      | e :: rest2 =>
        match escChar e with
        | some ec =>
          match parseStrBody fuel rest2 with
          | some (s, r) => some (ec :: s, r)
          | none => none
        | none => none
    else
      match parseStrBody fuel rest with
      | some (s, r) => some (c :: s, r)
      | none => none

/-- Consume a run of decimal digits, accumulating their value. -/
def parseDigitsAux : Nat → List Char → Nat → Nat × List Char
  | 0, cs, acc => (acc, cs)
  | fuel+1, cs, acc =>
    match cs with
    | c :: rest =>
      if c.isDigit then parseDigitsAux fuel rest (acc * 10 + (c.toNat - 48)) else (acc, cs)
    | [] => (acc, [])

/-- Decode a JSON non-negative integer; fractional or exponent parts (which
Python would decode to floats) are outside the model and fail. -/
def parseNat : Nat → List Char → Option (Nat × List Char)
  | fuel, cs =>
    match cs with
    | c :: _ =>
      if c.isDigit then
        match parseDigitsAux fuel cs 0 with
        | (n, rest) =>
          match rest with
          | d :: _ => if d = '.' || d = 'e' || d = 'E' then none else some (n, rest)
          | [] => some (n, [])
      else none
    | [] => none

mutual

/-- Recursive-descent JSON decoder for `json.loads`. -/
def parseVal : Nat → List Char → Option (PyVal × List Char)
  | 0, _ => none
  | fuel+1, cs =>
    match skipWs cs with
    | 'n' :: 'u' :: 'l' :: 'l' :: rest => some (.pyNone, rest)
    | 't' :: 'r' :: 'u' :: 'e' :: rest => some (.bool true, rest)
    | 'f' :: 'a' :: 'l' :: 's' :: 'e' :: rest => some (.bool false, rest)
    | '"' :: rest =>
      match parseStrBody fuel rest with
      | some (s, r) => some (.str (String.mk s), r)
      | none => none
    | '[' :: rest =>
      (match skipWs rest with
       | ']' :: r2 => some (.list [], r2)
       | _ =>
         match parseItems fuel rest with
         | some (xs, r) => some (.list xs, r)
         | none => none)
    | '\x7b' :: rest =>
      (match skipWs rest with
       | '\x7d' :: r2 => some (.dict [], r2)
       | _ =>
         match parseMembers fuel rest with
         | some (kvs, r) => some (.dict kvs, r)
         | none => none)
    | '-' :: rest =>
      (match parseNat fuel rest with
       | some (n, r) => some (.int (-(n : Int)), r)
       | none => none)
    | c :: rest =>
      if c.isDigit then
        match parseNat fuel (c :: rest) with
        | some (n, r) => some (.int (n : Int), r)
        | none => none
      else none
    | [] => none

/-- Decode the comma-separated items of a JSON array, up to `]`. -/
def parseItems : Nat → List Char → Option (List PyVal × List Char)
  | 0, _ => none
  | fuel+1, cs =>
    match parseVal fuel cs with
    | some (v, rest) =>
      (match skipWs rest with
       | ',' :: r2 =>
         (match parseItems fuel r2 with
          | some (xs, r3) => some (v :: xs, r3)
          | none => none)
       | ']' :: r2 => some ([v], r2)
       | _ => none)
    | none => none

/-- Decode the comma-separated members of a JSON object, up to the closing
brace. -/
def parseMembers : Nat → List Char → Option (List (String × PyVal) × List Char)
  | 0, _ => none
  | fuel+1, cs =>
    match skipWs cs with
    | '"' :: rest =>
      (match parseStrBody fuel rest with
       | some (k, r1) =>
         (match skipWs r1 with
          | ':' :: r2 =>
            (match parseVal fuel r2 with
             | some (v, r3) =>
               (match skipWs r3 with
                | ',' :: r4 =>
                  (match parseMembers fuel r4 with
                   | some (kvs, r5) => some ((String.mk k, v) :: kvs, r5)
                   | none => none)
                | '\x7d' :: r4 => some ([(String.mk k, v)], r4)
                | _ => none)
             | none => none)
          | _ => none)
       | none => none)
    | _ => none

end

/-- Python `json.loads`: decode one JSON value and reject trailing
non-whitespace input. -/
def json_loads (s : String) : Option PyVal :=
  match parseVal (s.toList.length + 1) s.toList with
  | some (v, rest) => if skipWs rest = [] then some v else none
  | none => none

/-- A Tavily search response: `results` is `none` when the response dict
has no results field, otherwise the content string of each result. -/
structure SearchResp where
  results : Option (List String)
deriving Repr, DecidableEq

/-- The Tavily search boundary: a query either yields a response or raises. -/
abbrev SearchFn := String → Except String SearchResp

/-- The chat-completion boundary: system text and user text either yield
a response content string or raise. -/
abbrev LlmFn := String → String → Except String String

/-! ## utils.py -/

/-- The environment and Gemini SDK boundary seen by `utils.py`:
the three environment variables consulted for a key, and the
`GenerativeModel(model_name).generate_content(prompt)` call. -/
structure GenaiEnv where
  gemini_api_key : Option String
  gemini_api_key1 : Option String
  gemini_api_key2 : Option String
  gen : String → String → Except String String

/-- Key resolution in `configure_genai`:
`os.getenv("GEMINI_API_KEY") or os.getenv("GEMINI_API_KEY1") or os.getenv("GEMINI_API_KEY2")`. -/
def resolved_gemini_key (env : GenaiEnv) : Option String :=
  match env.gemini_api_key with
  | some s => if s = "" then
      (match env.gemini_api_key1 with
       | some t => if t = "" then env.gemini_api_key2 else some t
       | none => env.gemini_api_key2)
    else some s
  | none =>
    match env.gemini_api_key1 with
    | some t => if t = "" then env.gemini_api_key2 else some t
    | none => env.gemini_api_key2

/-- `configure_genai`: raises `ValueError` when no truthy key is found. -/
def configure_genai (env : GenaiEnv) : Except String Unit :=
  if py_truthy (resolved_gemini_key env) then .ok ()
  else .error "No valid GEMINI_API_KEY found in environment variables."

/-- `generate_content(prompt, model_name=None)`: configures the SDK and
requests a completion, catching every exception into an error string. -/
def generate_content (env : GenaiEnv) (prompt : String) (model_name : Option String) : String :=
  let mn := match model_name with
            | none => "gemini-2.5-flash-lite"
            | some m => m
  match configure_genai env with
  | .error e => "Error generating content: " ++ e
  | .ok _ =>
    match env.gen mn prompt with
    | .ok t => t
    | .error e => "Error generating content: " ++ e

/-- The prompt built by `CaseManager.summarize_case`. -/
def case_summary_prompt (case_description : String) : String :=
  "\n        Analyze the following legal case description and extract key facts. \n        Provide a structured summary suitable for a legal debate.\n        \n        Case Description:\n        " ++ case_description ++ "\n        "

/-- `CaseManager.summarize_case`: delegates to `generate_content` with the
default model. -/
def summarize_case (env : GenaiEnv) (case_description : String) : String :=
  generate_content env (case_summary_prompt case_description) none

/-! ## Evidence lookup (one method per agent, src/defense_team.py and
src/prosecution_team.py) -/

/-- Query built by `DefenseAttorneyAgent.find_supporting_precedents`. -/
def supporting_precedents_query (feature : String) : String :=
  "successful examples and benefits of " ++ feature ++ " in modern courthouses"

/-- `DefenseAttorneyAgent.find_supporting_precedents`: no exception
handling, so a raising search propagates; a response without a results
field degrades to the empty list. -/
def find_supporting_precedents (search : SearchFn) (feature : String) :
    Except String (List String) :=
  match search (supporting_precedents_query feature) with
  | .ok resp => .ok (resp.results.getD [])
  | .error e => .error e

/-- Query built by `DefenseStrategistAgent.find_legal_loopholes`. -/
def legal_loopholes_query (prosecutor_point : String) : String :=
  "legal exceptions and successful defenses against " ++ prosecutor_point ++ " in construction law"

/-- `DefenseStrategistAgent.find_legal_loopholes`. -/
def find_legal_loopholes (search : SearchFn) (prosecutor_point : String) :
    Except String (List String) :=
  match search (legal_loopholes_query prosecutor_point) with
  | .ok resp => .ok (resp.results.getD [])
  | .error e => .error e

/-- Query built by `ProsecutorAgent.find_legal_precedents`. -/
def legal_precedents_query (feature : String) : String :=
  "legal risks and failure cases of " ++ feature ++ " in courthouses"

/-- `ProsecutorAgent.find_legal_precedents`. -/
def find_legal_precedents (search : SearchFn) (feature : String) :
    Except String (List String) :=
  match search (legal_precedents_query feature) with
  | .ok resp => .ok (resp.results.getD [])
  | .error e => .error e

/-- Query built by `ProsecutionStrategistAgent.find_counter_evidence`. -/
def counter_evidence_query (defense_claim : String) : String :=
  "evidence against " ++ defense_claim ++ " and failures in construction"

/-- `ProsecutionStrategistAgent.find_counter_evidence`. -/
def find_counter_evidence (search : SearchFn) (defense_claim : String) :
    Except String (List String) :=
  match search (counter_evidence_query defense_claim) with
  | .ok resp => .ok (resp.results.getD [])
  | .error e => .error e

/-- `"\n".join([f"- \x7bs['content']\x7d" for s in data])`, shared by all
four agents when rendering an evidence block. -/
def evidence_context (data : List String) : String :=
  String.intercalate "\n" (data.map (fun s => "- " ++ s))

/-! ## DefenseAttorneyAgent (src/defense_team.py) -/

def defense_attorney_system : String :=
  "You are a lead Defense Attorney specializing in Architectural Liability and Construction Law.\n            Your client is the Architect of the proposed courthouse model. Your goal is to zealously defend the design against all charges of inefficiency or flaw.\n\n            Your responsibilities:\n            1. Opening Statement: Present the model\x27s design choices as deliberate, lawful, and necessary for justice.\n            2. Rebuttal / Cross-Examination: If opposing counsel (the Critic) presents flaws, argue that these concerns are speculative, inadmissible, or outweighed by the benefits. Cast \"reasonable doubt\" on the validity of the critique.\n            3. Cite Precedents: Reference successful examples (Exhibits A, B, etc.) to prove the design is sound.\n            4. Closing Argument: Summarize why the model must be accepted (acquitted) as the superior choice.\n            5. Tone: Use legal terminology (e.g., \"submit into evidence\", \"objection\", \"precedent\", \"your Honor\", \"client\x27s intent\"), be persuasive, protective of the client, and professional."

def defense_attorney_user (support_context model_description : String)
    (critique_points : Option String) : String :=
  "\n            EVIDENCE / PRECEDENTS (EXHIBITS):\n            " ++ support_context ++
  "\n\n            CLIENT\x27S PROPOSED MODEL:\n            " ++ model_description ++
  "\n\n            PROSECUTION\x27S CRITIQUE (IF ANY):\n            " ++
  py_or_else critique_points "No charges filed yet." ++
  "\n\n            Provide a compelling legal defense of this model:"

/-- `DefenseAttorneyAgent.defend_model`: the evidence lookup runs outside
the try block, so its exceptions propagate; the completion request is
guarded and degrades to a marker string. -/
def defend_model (search : SearchFn) (llm : LlmFn)
    (model_description : String) (critique_points : Option String) :
    Except String String :=
  match find_supporting_precedents search "modern open-plan" with
  | .error e => .error e
  | .ok support_data =>
    let support_context := evidence_context support_data
    match llm defense_attorney_system
        (defense_attorney_user support_context model_description critique_points) with
    | .ok content => .ok content
    | .error e => .ok ("❌ Defense error: " ++ e)

/-- `DefenseAttorneyAgent.advocate` (the status callback is `None` in the
interface and is omitted). -/
def advocate (search : SearchFn) (llm : LlmFn)
    (model_data : String) (critique : Option String) : Except String String :=
  defend_model search llm model_data critique

/-! ## DefenseStrategistAgent (src/defense_team.py) -/

def defense_strategist_system : String :=
  "You are a Senior Legal Strategist for the Defense.\n            Your ONLY job is to find the flaws, gaps, and legal errors in the Prosecutor\x27s argument.\n            You are NOT judging the model. You are attacking the Prosecutor\x27s logic.\n            \n            Evaluate the Prosecutor\x27s case based on:\n            1. Logical Fallacies: Is the prosecutor using slippery slope or ad hominem attacks?\n            2. Lack of Precedent: Is their argument purely speculative?\n            3. Misinterpretation: Have they misunderstood the design intent?\n            4. Counter-Strategy: Provide 3 specific legal arguments the Defense Lawyer (Advocate A) should use in rebuttal.\n            \n            Be sharp, cynical, and 100% on the side of the Defense."

def defense_strategist_user (loophole_context model_description prosecutor_argument : String) :
    String :=
  "\n            LEGAL LOOPHOLES & PRECEDENTS:\n            " ++ loophole_context ++
  "\n\n            DEFENDANT\x27S MODEL:\n            " ++ model_description ++
  "\n\n            PROSECUTOR\x27S ARGUMENT:\n            " ++ prosecutor_argument ++
  "\n\n            Provide a strategic breakdown of the prosecution\x27s weaknesses:"

/-- `DefenseStrategistAgent.dismantle_prosecution`: lookup outside the try
block, completion guarded. -/
def dismantle_prosecution (search : SearchFn) (llm : LlmFn)
    (model_description prosecutor_argument : String) : Except String String :=
  match find_legal_loopholes search "strict liability in design" with
  | .error e => .error e
  | .ok counter_evidence =>
    let loophole_context := evidence_context counter_evidence
    match llm defense_strategist_system
        (defense_strategist_user loophole_context model_description prosecutor_argument) with
    | .ok content => .ok content
    | .error e => .ok ("❌ Strategy error: " ++ e)

/-- `DefenseStrategistAgent.strategize`. -/
def strategize_defense (search : SearchFn) (llm : LlmFn)
    (model_data prosecutor_arg : String) : Except String String :=
  dismantle_prosecution search llm model_data prosecutor_arg

/-! ## ProsecutorAgent (src/prosecution_team.py) -/

def prosecutor_system : String :=
  "You are the Chief Prosecutor representing the Public Interest and Judicial Safety standards.\n            Your goal is to relentlessly cross-examine the proposed courthouse model and expose every flaw, safety risk, and inefficiency.\n\n            Your responsibilities:\n            1. Opening Statement: Declare the model \"guilty\" of poor design, safety violations, or wastefulness.\n            2. Cross-Examination: If the Defense has spoken, tear apart their arguments. Point out contradictions or idealism that ignores reality.\n            3. Cite Violations: Use the provided context (Exhibit B) to show where similar designs have failed or are illegal.\n            4. Closing Argument: Demand that the model be rejected (convicted) for the safety of the public.\n            5. Tone: Accusatory, sharp, authoritative, and uncompromising. Use legal terms like \"negligence\", \"liability\", \"motion to strike\", \"objection\"."

def prosecutor_user (damage_context model_description : String)
    (defense_arguments : Option String) : String :=
  "\n            EVIDENCE OF FAILURES (EXHIBIT B):\n            " ++ damage_context ++
  "\n\n            DEFENDANT\x27S PROPOSED MODEL:\n            " ++ model_description ++
  "\n\n            DEFENSE ARGUMENTS (IF ANY):\n            " ++
  py_or_else defense_arguments "The Defense has remained silent." ++
  "\n\n            Prosecute this model immediately:"

/-- `ProsecutorAgent.prosecute_model`: lookup outside the try block,
completion guarded. -/
def prosecute_model (search : SearchFn) (llm : LlmFn)
    (model_description : String) (defense_arguments : Option String) :
    Except String String :=
  match find_legal_precedents search "modern open-plan" with
  | .error e => .error e
  | .ok damage_data =>
    let damage_context := evidence_context damage_data
    match llm prosecutor_system
        (prosecutor_user damage_context model_description defense_arguments) with
    | .ok content => .ok content
    | .error e => .ok ("❌ Prosecution error: " ++ e)

/-- `ProsecutorAgent.prosecute`. -/
def prosecute (search : SearchFn) (llm : LlmFn)
    (model_data : String) (defense : Option String) : Except String String :=
  prosecute_model search llm model_data defense

/-! ## ProsecutionStrategistAgent (src/prosecution_team.py) -/

def prosecution_strategist_system : String :=
  "You are the Chief Prosecution Strategist.\n            Your ONLY job is to destroy the credibility of the Defense Attorney.\n            You are NOT judging the model. You are attacking the Defense\x27s Argument.\n            \n            Evaluate the Defense\x27s case based on:\n            1. Emotional Manipulation: Is the defense using sob stories instead of facts?\n            2. Safety Violations: Does the defense ignore public safety regulations?\n            3. Cost: Is the defense hiding the true cost to the taxpayer?\n            4. Attack Plan: Provide 3 lethal questions the Prosecutor (Advocate B) should ask on cross-examination.\n            \n            Be ruthless, precise, and completely intolerant of vague \"visionary\" talk."

def prosecution_strategist_user (rebuttal_context model_description defense_argument : String) :
    String :=
  "\n            DAMNING EVIDENCE (REBUTTAL):\n            " ++ rebuttal_context ++
  "\n\n            DEFENDANT\x27S MODEL:\n            " ++ model_description ++
  "\n\n            DEFENSE ARGUMENT:\n            " ++ defense_argument ++
  "\n\n            Provide a plan to crush the defense:"

/-- `ProsecutionStrategistAgent.shred_defense`: lookup outside the try
block, completion guarded. -/
def shred_defense (search : SearchFn) (llm : LlmFn)
    (model_description defense_argument : String) : Except String String :=
  match find_counter_evidence search "unproven architectural innovations" with
  | .error e => .error e
  | .ok rebuttal_evidence =>
    let rebuttal_context := evidence_context rebuttal_evidence
    match llm prosecution_strategist_system
        (prosecution_strategist_user rebuttal_context model_description defense_argument) with
    | .ok content => .ok content
    | .error e => .ok ("❌ Strategy error: " ++ e)

/-- `ProsecutionStrategistAgent.strategize`. -/
def strategize_prosecution (search : SearchFn) (llm : LlmFn)
    (model_data defense_arg : String) : Except String String :=
  shred_defense search llm model_data defense_arg

/-! ## JudgeAgent (src/judge.py) -/

/-- `JudgeAgent.verify_key_claims`: iterates the claims (raising
`TypeError` on a non-iterable argument), fact-checking each claim with a
Tavily query; a lookup failure is recorded per claim, not raised. -/
def verify_key_claims (search : SearchFn) (claims : PyVal) :
    Except PyError (List PyVal) :=
  match pyIter claims with
  | .error err => .error err
  | .ok items => .ok (items.map (fun claim =>
      match search ("fact check " ++ py_str claim ++ " true or false evidence") with
      | .ok resp =>
        PyVal.dict [("claim", claim),
                    ("evidence", PyVal.list ((resp.results.getD []).map PyVal.str))]
      | .error e => PyVal.dict [("claim", claim), ("error", PyVal.str e)]))

def judge_clerk_system : String :=
  "You are a Judicial Clerk. Extract 3 specific, verifiable factual claims that are in dispute between the Defense and Prosecution."

def claim_extraction_user (defense_brief prosecution_brief : String) : String :=
  "\n            DEFENSE BRIEF: " ++ defense_brief ++
  "\n            PROSECUTION BRIEF: " ++ prosecution_brief ++
  "\n            \n            Return ONLY a JSON list of strings, e.g. [\"claim 1\", \"claim 2\"]\n            "

/-- The fallback claim triple of `JudgeAgent.deliberate`. -/
def default_claims : PyVal :=
  .list [.str "safety compliance", .str "cost efficiency", .str "historical precedent"]

/-- The code-fence cleanup in `JudgeAgent.deliberate`:
`claims_json.split("```json")[1].split("```")[0]`. -/
def strip_code_fence (s : String) : String :=
  ((py_split ((py_split s "```json").getD 1 "") "```").getD 0 "")

/-- The claim-extraction try block of `JudgeAgent.deliberate`: the
completion response (or its raising) is cleaned of a code fence and JSON
decoded; the bare except turns any failure into the default triple. -/
def extract_claims (resp : Except String String) : PyVal :=
  match resp with
  | .error _ => default_claims
  | .ok content =>
    let claims_json :=
      if contains_substr "```json" content then strip_code_fence content else content
    match json_loads claims_json with
    | some v => v
    | none => default_claims

def judge_judgment_system : String :=
  "You are the Supreme Judge of Architectural Law.\n            Your duty is to render a verdict based ONLY on facts and safety.\n            \n            CRITICAL RULES:\n            1. CONSENSUS CHECK: If the independent verification (Tavily) contradicts both sides or is inconclusive on safety critical issues, you MUST REFUSE to decide.\n            2. SAFETY FIRST: Any confirmed safety violation is immediate grounds for ruling against the model.\n            3. OBJECTIVITY: Ignore emotional appeals from the Defense or Prosecution.\n            \n            Output your report in the following MarkDown format:\n            \n            ## 🏛️ Judicial Report\n            \n            ### 🛡️ Defense Summary\n            [Brief Summary]\n            \n            ### ⚖️ Prosecution Summary\n            [Brief Summary]\n            \n            ### 🔍 Independent Verification (Tavily Core)\n            [Summarize the Tavily findings for the disputed claims]\n            \n            ### 📊 Confidence Analysis\n            - **Confidence Score**: [0-100]%\n            - **Consensus Status**: [Strong/Weak/Conflict]\n            \n            ### 🧑‍⚖️ Final Decision\n            [VERDICT: DEFENSE WINS | VERDICT: PROSECUTION WINS | REFUSAL: NEW SESSION ORDERED]\n            \n            [Detailed reasoning for the decision/refusal]"

def judgment_user (defense_brief prosecution_brief defense_strategy prosecution_strategy
    verification_text : String) : String :=
  "\n            DEFENSE ARGUMENTS: " ++ defense_brief ++
  "\n            PROSECUTION ARGUMENTS: " ++ prosecution_brief ++
  "\n            DEFENSE STRATEGY: " ++ defense_strategy ++
  "\n            PROSECUTION STRATEGY: " ++ prosecution_strategy ++
  "\n            \n            INDEPENDENT FACT CHECK RESULTS (TAVILY):\n            " ++
  verification_text ++
  "\n            \n            Render your decision now:"

/-- The oracles seen by `JudgeAgent`: its Groq chat model and its Tavily
client. -/
structure JudgeOracles where
  llm : LlmFn
  search : SearchFn

/-- `JudgeAgent.deliberate`: claim extraction (fully guarded by a bare
except), per-claim verification (its iteration can raise `TypeError`), and
the final judgment completion, which is not guarded at all. -/
def deliberate (o : JudgeOracles)
    (defense_brief prosecution_brief defense_strategy prosecution_strategy : String) :
    Except PyError String :=
  let claims_to_check :=
    extract_claims (o.llm judge_clerk_system (claim_extraction_user defense_brief prosecution_brief))
  match verify_key_claims o.search claims_to_check with
  | .error err => .error err
  | .ok verification_results =>
    let verification_text := json_dump_v 0 (PyVal.list verification_results)
    match o.llm judge_judgment_system
        (judgment_user defense_brief prosecution_brief defense_strategy prosecution_strategy
          verification_text) with
    | .ok verdict => .ok verdict
    | .error e => .error (.raised e)

/-! ## Debate orchestrator (src/interface.py simulation loop) -/

/-- Which agent produced a statement. -/
inductive Role where
  | pStrat
  | pAdv
  | dStrat
  | dAdv
deriving Repr, DecidableEq

/-- One agent turn observed during the simulation loop: the acting agent,
the 1-based round number, the opponent-statement argument it was given and
the statement it returned. -/
structure Event where
  role : Role
  round : Nat
  opponent_input : String
  output : String
deriving Repr, DecidableEq

/-- The accumulating local variables of the simulation loop, plus the
trace of agent turns in execution order. -/
structure SimState where
  defense_brief : String
  prosecution_brief : String
  defense_strategy_doc : String
  prosecution_strategy_doc : String
  trace : List Event
deriving Repr, DecidableEq

/-- The oracles behind the five remote clients used by the loop's agents
(the Tavily key is shared; each agent has its own chat model). -/
structure Env where
  search : SearchFn
  defense_llm : LlmFn
  defense_strat_llm : LlmFn
  prosecution_llm : LlmFn
  prosecution_strat_llm : LlmFn

/-- `f"\nRound \x7br+1\x7d: \x7bstatement\x7d\n"`, the string appended to a
brief or strategy document after a turn. -/
def brief_entry (r : Nat) (statement : String) : String :=
  "\nRound " ++ toString r ++ ": " ++ statement ++ "\n"

/-- One iteration of `for r in range(num_rounds)` in src/interface.py:
prosecution strategist, prosecution advocate, defense strategist, defense
advocate, each feeding the accumulating documents; an exception from any
agent aborts the script. -/
def round_step (env : Env) (case_summary : String) (r : Nat) (st : SimState) :
    Except String SimState :=
  let p_strat_in := if r = 0 then "Initial Opening Strategy" else st.defense_brief
  match strategize_prosecution env.search env.prosecution_strat_llm case_summary p_strat_in with
  | .error e => .error e
  | .ok p_strat =>
    let p_adv_in := if r = 0 then "Opening Statement" else st.defense_brief
    match prosecute env.search env.prosecution_llm case_summary (some p_adv_in) with
    | .error e => .error e
    | .ok p_arg =>
      match strategize_defense env.search env.defense_strat_llm case_summary p_arg with
      | .error e => .error e
      | .ok d_strat =>
        match advocate env.search env.defense_llm case_summary (some p_arg) with
        | .error e => .error e
        | .ok d_arg =>
          .ok { defense_brief := st.defense_brief ++ brief_entry (r + 1) d_arg,
                prosecution_brief := st.prosecution_brief ++ brief_entry (r + 1) p_arg,
                defense_strategy_doc := st.defense_strategy_doc ++ brief_entry (r + 1) d_strat,
                prosecution_strategy_doc :=
                  st.prosecution_strategy_doc ++ brief_entry (r + 1) p_strat,
                trace := st.trace ++
                  [Event.mk Role.pStrat (r + 1) p_strat_in p_strat,
                   Event.mk Role.pAdv (r + 1) p_adv_in p_arg,
                   Event.mk Role.dStrat (r + 1) p_arg d_strat,
                   Event.mk Role.dAdv (r + 1) p_arg d_arg] }

/-- Run `n` further rounds starting at round index `r`. -/
def run_rounds (env : Env) (case_summary : String) : Nat → Nat → SimState → Except String SimState
  | 0, _, st => .ok st
  | Nat.succ n, r, st =>
    match round_step env case_summary r st with
    | .error e => .error e
    | .ok st2 => run_rounds env case_summary n (r + 1) st2

/-- The state before the loop: four empty documents. -/
def init_state : SimState :=
  { defense_brief := "", prosecution_brief := "", defense_strategy_doc := "",
    prosecution_strategy_doc := "", trace := [] }

/-- The whole simulation loop for a chosen round count. -/
def run_simulation (env : Env) (case_summary : String) (num_rounds : Nat) :
    Except String SimState :=
  run_rounds env case_summary num_rounds 0 init_state

/-! ## Specification predicates over the orchestrator -/

/-- `a` is a strict prefix of `b`: some non-empty suffix extends `a` to `b`. -/
def prefix_strict (a b : String) : Prop :=
  ∃ t, t ≠ "" ∧ b = a ++ t

/-- The concatenation of the `"\nRound \x7br\x7d: ...\n"` entries of the
events of one role, in order: what a document accumulates from that role. -/
def brief_of (ro : Role) : List Event → String
  | [] => ""
  | e :: es => (if e.role = ro then brief_entry e.round e.output else "") ++ brief_of ro es

/-- The role/round pattern of `n` rounds starting at round index `r`:
prosecution strategist, prosecution advocate, defense strategist, defense
advocate, with 1-based round numbers. -/
def expected_rr : Nat → Nat → List (Role × Nat)
  | 0, _ => []
  | n+1, r =>
    (Role.pStrat, r + 1) :: (Role.pAdv, r + 1) :: (Role.dStrat, r + 1) ::
      (Role.dAdv, r + 1) :: expected_rr n (r + 1)

/-- How many trace events a role produced. -/
def count_role (ro : Role) (es : List Event) : Nat :=
  (es.filter (fun e => decide (e.role = ro))).length

/-- The shape of an error-free trace of `n` rounds starting at round index
`r` when the cumulative defense brief so far is `dbrief`: each round is the
four turns in order, the two prosecution turns fed the sentinel pair on the
first round and the cumulative defense brief afterwards, the two defense
turns fed the prosecution advocate's statement of the same round, and the
defense brief grows by that round's defense advocate entry. -/
def good_blocks : Nat → Nat → String → List Event → Prop
  | 0, _, _, es => es = []
  | n+1, r, dbrief, es => ∃ ps pa ds da rest,
    es = Event.mk Role.pStrat (r + 1)
           (if r = 0 then "Initial Opening Strategy" else dbrief) ps ::
         Event.mk Role.pAdv (r + 1)
           (if r = 0 then "Opening Statement" else dbrief) pa ::
         Event.mk Role.dStrat (r + 1) pa ds ::
         Event.mk Role.dAdv (r + 1) pa da :: rest ∧
    good_blocks n (r + 1) (dbrief ++ brief_entry (r + 1) da) rest

/-! ## Helper lemmas -/

theorem brief_of_append (ro : Role) (a b : List Event) :
    brief_of ro (a ++ b) = brief_of ro a ++ brief_of ro b := by
  induction a with
  | nil => simp [brief_of]
  | cons e es ih => simp [brief_of, ih, String.append_assoc]

theorem brief_entry_ne_empty (r : Nat) (s : String) : brief_entry r s ≠ "" := by
  intro h
  have h2 := congrArg String.length h
  simp [brief_entry, String.length_append] at h2
  exact absurd h2.2 (by decide)

/-- Unpack one successful loop iteration into the four statements it
produced, the resulting document extensions and the trace extension. -/
theorem round_step_ok {env : Env} {c : String} {r : Nat} {st st' : SimState}
    (h : round_step env c r st = .ok st') :
    ∃ ps pa ds da,
      st'.defense_brief = st.defense_brief ++ brief_entry (r + 1) da ∧
      st'.prosecution_brief = st.prosecution_brief ++ brief_entry (r + 1) pa ∧
      st'.defense_strategy_doc = st.defense_strategy_doc ++ brief_entry (r + 1) ds ∧
      st'.prosecution_strategy_doc = st.prosecution_strategy_doc ++ brief_entry (r + 1) ps ∧
      st'.trace = st.trace ++
        [Event.mk Role.pStrat (r + 1)
           (if r = 0 then "Initial Opening Strategy" else st.defense_brief) ps,
         Event.mk Role.pAdv (r + 1)
           (if r = 0 then "Opening Statement" else st.defense_brief) pa,
         Event.mk Role.dStrat (r + 1) pa ds,
         Event.mk Role.dAdv (r + 1) pa da] := by
  simp only [round_step] at h
  split at h
  · simp at h
  rename_i p_strat h1
  split at h
  · simp at h
  rename_i p_arg h2
  split at h
  · simp at h
  rename_i d_strat h3
  split at h
  · simp at h
  rename_i d_arg h4
  injection h with h5
  subst h5
  exact ⟨p_strat, p_arg, d_strat, d_arg, rfl, rfl, rfl, rfl, rfl⟩

/-- Running `a + b` rounds is running `a` rounds and then `b` more. -/
theorem run_rounds_add (env : Env) (c : String) :
    ∀ (a b r : Nat) (st : SimState),
      run_rounds env c (a + b) r st =
        match run_rounds env c a r st with
        | .ok st2 => run_rounds env c b (r + a) st2
        | .error e => .error e := by
  intro a
  induction a with
  | zero =>
    intro b r st
    simp [run_rounds]
  | succ a ih =>
    intro b r st
    rw [show a + 1 + b = (a + b) + 1 from by omega]
    cases hrs : round_step env c r st with
    | error e =>
      simp [run_rounds, hrs]
    | ok st2 =>
      simp only [run_rounds, hrs]
      rw [ih b (r + 1) st2]
      cases hrr : run_rounds env c a (r + 1) st2 with
      | error e => rfl
      | ok st3 =>
        simp only []
        rw [show r + 1 + a = r + (a + 1) from by omega]

/-- Master structural lemma: an error-free run of `n` rounds extends the
trace with a `good_blocks` block list and extends each of the four
documents with exactly the entries of its role. -/
theorem run_rounds_struct (env : Env) (c : String) :
    ∀ (n r : Nat) (st st' : SimState), run_rounds env c n r st = .ok st' →
      ∃ es, st'.trace = st.trace ++ es ∧ good_blocks n r st.defense_brief es ∧
        st'.defense_brief = st.defense_brief ++ brief_of Role.dAdv es ∧
        st'.prosecution_brief = st.prosecution_brief ++ brief_of Role.pAdv es ∧
        st'.defense_strategy_doc = st.defense_strategy_doc ++ brief_of Role.dStrat es ∧
        st'.prosecution_strategy_doc = st.prosecution_strategy_doc ++ brief_of Role.pStrat es := by
  intro n
  induction n with
  | zero =>
    intro r st st' h
    simp only [run_rounds] at h
    injection h with h2
    subst h2
    exact ⟨[], by simp, rfl, by simp [brief_of, String.append_empty],
      by simp [brief_of, String.append_empty], by simp [brief_of, String.append_empty],
      by simp [brief_of, String.append_empty]⟩
  | succ n ih =>
    intro r st st' h
    simp only [run_rounds] at h
    cases hrs : round_step env c r st with
    | error e => rw [hrs] at h; simp at h
    | ok st2 =>
      rw [hrs] at h
      obtain ⟨ps, pa, ds, da, hdb, hpb, hds, hps, htr⟩ := round_step_ok hrs
      obtain ⟨es', htr', hgb', hdb', hpb', hds', hps'⟩ := ih (r + 1) st2 st' h
      refine ⟨Event.mk Role.pStrat (r + 1)
          (if r = 0 then "Initial Opening Strategy" else st.defense_brief) ps ::
        Event.mk Role.pAdv (r + 1)
          (if r = 0 then "Opening Statement" else st.defense_brief) pa ::
        Event.mk Role.dStrat (r + 1) pa ds ::
        Event.mk Role.dAdv (r + 1) pa da :: es', ?_, ?_, ?_, ?_, ?_, ?_⟩
      · rw [htr', htr]
        simp [List.append_assoc]
      · refine ⟨ps, pa, ds, da, es', rfl, ?_⟩
        rw [← hdb]
        exact hgb'
      · rw [hdb', hdb]
        simp [brief_of, String.append_assoc, String.empty_append]
      · rw [hpb', hpb]
        simp [brief_of, String.append_assoc, String.empty_append]
      · rw [hds', hds]
        simp [brief_of, String.append_assoc, String.empty_append]
      · rw [hps', hps]
        simp [brief_of, String.append_assoc, String.empty_append]

/-- A good trace realises the expected role/round pattern. -/
theorem good_blocks_roles :
    ∀ (n r : Nat) (b : String) (es : List Event), good_blocks n r b es →
      es.map (fun e => (e.role, e.round)) = expected_rr n r := by
  intro n
  induction n with
  | zero =>
    intro r b es h
    rw [show good_blocks 0 r b es = (es = []) from rfl] at h
    subst h
    rfl
  | succ n ih =>
    intro r b es h
    obtain ⟨ps, pa, ds, da, rest, hes, hrest⟩ := h
    subst hes
    simp [expected_rr, ih _ _ _ hrest]

/-- Each role produces exactly one statement per round of a good trace. -/
theorem good_blocks_count (ro : Role) :
    ∀ (n r : Nat) (b : String) (es : List Event), good_blocks n r b es →
      count_role ro es = n := by
  intro n
  induction n with
  | zero =>
    intro r b es h
    rw [show good_blocks 0 r b es = (es = []) from rfl] at h
    subst h
    rfl
  | succ n ih =>
    intro r b es h
    obtain ⟨ps, pa, ds, da, rest, hes, hrest⟩ := h
    subst hes
    have hr := ih _ _ _ hrest
    cases ro <;> simp_all [count_role, List.filter]

/-- In a good trace, every defense turn was fed the output of the
prosecution advocate event of its own round. -/
theorem good_blocks_reacts :
    ∀ (n r : Nat) (b : String) (es : List Event), good_blocks n r b es →
      ∀ e ∈ es, (e.role = Role.dStrat ∨ e.role = Role.dAdv) →
        ∃ e2, e2 ∈ es ∧ e2.role = Role.pAdv ∧ e2.round = e.round ∧
          e.opponent_input = e2.output := by
  intro n
  induction n with
  | zero =>
    intro r b es h
    rw [show good_blocks 0 r b es = (es = []) from rfl] at h
    subst h
    intro e he
    simp at he
  | succ n ih =>
    intro r b es h
    obtain ⟨ps, pa, ds, da, rest, hes, hrest⟩ := h
    subst hes
    intro e he hrole
    simp only [List.mem_cons] at he
    rcases he with rfl | rfl | rfl | rfl | hmem
    · rcases hrole with h1 | h1 <;> simp at h1
    · rcases hrole with h1 | h1 <;> simp at h1
    · exact ⟨Event.mk Role.pAdv (r + 1)
        (if r = 0 then "Opening Statement" else b) pa, by simp, rfl, rfl, rfl⟩
    · exact ⟨Event.mk Role.pAdv (r + 1)
        (if r = 0 then "Opening Statement" else b) pa, by simp, rfl, rfl, rfl⟩
    · obtain ⟨e2, he2, h1, h2, h3⟩ := ih _ _ _ hrest e hmem hrole
      exact ⟨e2, by simp [he2], h1, h2, h3⟩

/-! ## Concrete stub oracles used by witnesses and counterexamples -/

/-- A search boundary that raises on every call. -/
def down_search : SearchFn := fun _ => .error "tavily down"

/-- A search boundary that succeeds with an empty result list. -/
def stub_search : SearchFn := fun _ => .ok ⟨some []⟩

/-- A completion boundary that returns a fixed statement. -/
def stub_ok_llm : LlmFn := fun _ _ => .ok "stmt"

/-- Canned-statement environment for the orchestrator: every search
succeeds with no results, each agent's model returns its fixed statement. -/
def stub_env : Env :=
  { search := stub_search,
    defense_llm := fun _ _ => .ok "DA",
    defense_strat_llm := fun _ _ => .ok "DS",
    prosecution_llm := fun _ _ => .ok "PA",
    prosecution_strat_llm := fun _ _ => .ok "PS" }

/-- The state `stub_env` reaches after one round. -/
def sim1_state : SimState :=
  { defense_brief := "\nRound 1: DA\n",
    prosecution_brief := "\nRound 1: PA\n",
    defense_strategy_doc := "\nRound 1: DS\n",
    prosecution_strategy_doc := "\nRound 1: PS\n",
    trace := [Event.mk Role.pStrat 1 "Initial Opening Strategy" "PS",
              Event.mk Role.pAdv 1 "Opening Statement" "PA",
              Event.mk Role.dStrat 1 "PA" "DS",
              Event.mk Role.dAdv 1 "PA" "DA"] }

/-- The state `stub_env` reaches after three rounds. -/
def sim3_state : SimState :=
  { defense_brief := "\nRound 1: DA\n\nRound 2: DA\n\nRound 3: DA\n",
    prosecution_brief := "\nRound 1: PA\n\nRound 2: PA\n\nRound 3: PA\n",
    defense_strategy_doc := "\nRound 1: DS\n\nRound 2: DS\n\nRound 3: DS\n",
    prosecution_strategy_doc := "\nRound 1: PS\n\nRound 2: PS\n\nRound 3: PS\n",
    trace := [Event.mk Role.pStrat 1 "Initial Opening Strategy" "PS",
              Event.mk Role.pAdv 1 "Opening Statement" "PA",
              Event.mk Role.dStrat 1 "PA" "DS",
              Event.mk Role.dAdv 1 "PA" "DA",
              Event.mk Role.pStrat 2 "\nRound 1: DA\n" "PS",
              Event.mk Role.pAdv 2 "\nRound 1: DA\n" "PA",
              Event.mk Role.dStrat 2 "PA" "DS",
              Event.mk Role.dAdv 2 "PA" "DA",
              Event.mk Role.pStrat 3 "\nRound 1: DA\n\nRound 2: DA\n" "PS",
              Event.mk Role.pAdv 3 "\nRound 1: DA\n\nRound 2: DA\n" "PA",
              Event.mk Role.dStrat 3 "PA" "DS",
              Event.mk Role.dAdv 3 "PA" "DA"] }

/-! ## C1 -/

/-- C1 counterexample: when the Tavily search raises, each of the four
arguing agents' statement-producing methods raises (returns `Except.error`)
instead of degrading to empty evidence and returning a statement — the
search calls run outside the guarded completion block. -/
theorem c1_search_fault_cx :
    defend_model down_search stub_ok_llm "m" none = .error "tavily down" ∧
    dismantle_prosecution down_search stub_ok_llm "m" "arg" = .error "tavily down" ∧
    prosecute_model down_search stub_ok_llm "m" none = .error "tavily down" ∧
    shred_defense down_search stub_ok_llm "m" "arg" = .error "tavily down" :=
  ⟨rfl, rfl, rfl, rfl⟩

/-- C1 amended: for every arguing-agent call, if the Tavily search raises,
the exception propagates uncaught out of the agent's statement-producing
method (the search runs outside the completion try block); the
empty-sequence degradation only covers a successful response without a
results field. -/
theorem c1_search_fault_amended (search : SearchFn) (llm : LlmFn)
    (desc arg : String) (crit : Option String) (e : String)
    (h1 : search (supporting_precedents_query "modern open-plan") = .error e)
    (h2 : search (legal_loopholes_query "strict liability in design") = .error e)
    (h3 : search (legal_precedents_query "modern open-plan") = .error e)
    (h4 : search (counter_evidence_query "unproven architectural innovations") = .error e) :
    defend_model search llm desc crit = .error e ∧
    dismantle_prosecution search llm desc arg = .error e ∧
    prosecute_model search llm desc crit = .error e ∧
    shred_defense search llm desc arg = .error e := by
  refine ⟨?_, ?_, ?_, ?_⟩
  · simp [defend_model, find_supporting_precedents, h1]
  · simp [dismantle_prosecution, find_legal_loopholes, h2]
  · simp [prosecute_model, find_legal_precedents, h3]
  · simp [shred_defense, find_counter_evidence, h4]

/-- C1 amended, witnessed at the always-raising search stub. -/
theorem c1_search_fault_amended_wit :
    defend_model down_search stub_ok_llm "m" none = .error "tavily down" ∧
    dismantle_prosecution down_search stub_ok_llm "m" "arg" = .error "tavily down" ∧
    prosecute_model down_search stub_ok_llm "m" none = .error "tavily down" ∧
    shred_defense down_search stub_ok_llm "m" "arg" = .error "tavily down" :=
  c1_search_fault_amended down_search stub_ok_llm "m" "arg" none "tavily down"
    rfl rfl rfl rfl

/-! ## C8 -/

/-- C8: when the search succeeds and the completion request raises, each
arguing agent returns its formatted failure-marker string instead of
raising, so the failure becomes transcript text. -/
theorem c8_completion_error_marker (search : SearchFn)
    (resp1 resp2 resp3 resp4 : SearchResp) (desc arg : String) (crit : Option String)
    (e : String)
    (h1 : search (supporting_precedents_query "modern open-plan") = .ok resp1)
    (h2 : search (legal_loopholes_query "strict liability in design") = .ok resp2)
    (h3 : search (legal_precedents_query "modern open-plan") = .ok resp3)
    (h4 : search (counter_evidence_query "unproven architectural innovations") = .ok resp4) :
    defend_model search (fun _ _ => .error e) desc crit = .ok ("❌ Defense error: " ++ e) ∧
    dismantle_prosecution search (fun _ _ => .error e) desc arg =
      .ok ("❌ Strategy error: " ++ e) ∧
    prosecute_model search (fun _ _ => .error e) desc crit =
      .ok ("❌ Prosecution error: " ++ e) ∧
    shred_defense search (fun _ _ => .error e) desc arg = .ok ("❌ Strategy error: " ++ e) := by
  refine ⟨?_, ?_, ?_, ?_⟩
  · simp [defend_model, find_supporting_precedents, h1]
  · simp [dismantle_prosecution, find_legal_loopholes, h2]
  · simp [prosecute_model, find_legal_precedents, h3]
  · simp [shred_defense, find_counter_evidence, h4]

/-- C8, witnessed at a succeeding search stub and a raising completion. -/
theorem c8_completion_error_marker_wit :
    defend_model stub_search (fun _ _ => .error "rate limited") "m" none =
      .ok ("❌ Defense error: " ++ "rate limited") ∧
    dismantle_prosecution stub_search (fun _ _ => .error "rate limited") "m" "arg" =
      .ok ("❌ Strategy error: " ++ "rate limited") ∧
    prosecute_model stub_search (fun _ _ => .error "rate limited") "m" none =
      .ok ("❌ Prosecution error: " ++ "rate limited") ∧
    shred_defense stub_search (fun _ _ => .error "rate limited") "m" "arg" =
      .ok ("❌ Strategy error: " ++ "rate limited") :=
  c8_completion_error_marker stub_search ⟨some []⟩ ⟨some []⟩ ⟨some []⟩ ⟨some []⟩
    "m" "arg" none "rate limited" rfl rfl rfl rfl

/-! ## C2 -/

/-- Judge oracles whose claim extraction returns a valid two-item JSON
list and whose judgment completion echoes its user prompt. -/
def c2_oracles : JudgeOracles :=
  { llm := fun sys u =>
      if sys = judge_clerk_system then .ok "[\"claim 1\", \"claim 2\"]" else .ok u,
    search := fun _ => .ok ⟨some ["ev"]⟩ }

/-- C2 counterexample: a claim-extraction response that is a valid JSON
list with fewer than 3 items is used as-is — `deliberate` verifies exactly
those two claims and never falls back to the default triple. -/
theorem c2_fewer_items_cx :
    extract_claims (Except.ok "[\"claim 1\", \"claim 2\"]") =
      PyVal.list [PyVal.str "claim 1", PyVal.str "claim 2"] ∧
    extract_claims (Except.ok "[\"claim 1\", \"claim 2\"]") ≠ default_claims ∧
    deliberate c2_oracles "d" "p" "ds" "ps" =
      .ok (judgment_user "d" "p" "ds" "ps" (json_dump_v 0 (PyVal.list
        [PyVal.dict [("claim", PyVal.str "claim 1"),
                     ("evidence", PyVal.list [PyVal.str "ev"])],
         PyVal.dict [("claim", PyVal.str "claim 2"),
                     ("evidence", PyVal.list [PyVal.str "ev"])]]))) := by
  refine ⟨rfl, ?_, rfl⟩
  intro h
  have hval : extract_claims (Except.ok "[\"claim 1\", \"claim 2\"]") =
      PyVal.list [PyVal.str "claim 1", PyVal.str "claim 2"] := rfl
  rw [hval] at h
  have h2 := congrArg (fun v => match v with | PyVal.list xs => xs.length | _ => 0) h
  simp [default_claims] at h2

/-- C2 amended: a raising extraction completion or a non-JSON response
falls back to exactly the default triple, but any successfully decoded
JSON value — including a list with fewer than 3 items — is used as-is. -/
theorem c2_parse_fallback_amended (e s : String) :
    extract_claims (Except.error e) = default_claims ∧
    (json_loads (if contains_substr "```json" s then strip_code_fence s else s) = none →
      extract_claims (Except.ok s) = default_claims) ∧
    (∀ v, json_loads (if contains_substr "```json" s then strip_code_fence s else s) = some v →
      extract_claims (Except.ok s) = v) := by
  refine ⟨rfl, ?_, ?_⟩
  · intro hnone
    simp [extract_claims, hnone]
  · intro v hv
    simp [extract_claims, hv]

/-- C2 amended, witnessed on a raising completion, a non-JSON response
and an empty JSON list. -/
theorem c2_parse_fallback_amended_wit :
    extract_claims (Except.error "boom") = default_claims ∧
    extract_claims (Except.ok "not json") = default_claims ∧
    extract_claims (Except.ok "[]") = PyVal.list [] :=
  ⟨(c2_parse_fallback_amended "boom" "not json").1,
   (c2_parse_fallback_amended "boom" "not json").2.1 rfl,
   (c2_parse_fallback_amended "boom" "[]").2.2 (PyVal.list []) rfl⟩

/-! ## C3 -/

/-- C3 counterexample oracles: claim extraction raises, everything else
succeeds. -/
def c3cx_oracles : JudgeOracles :=
  { llm := fun sys _ =>
      if sys = judge_clerk_system then .error "llm down" else .ok "THE VERDICT",
    search := stub_search }

/-- C3 counterexample: a language-model failure in the claim-extraction
step does not propagate — the bare except absorbs it into the default
triple and `deliberate` still returns the verdict. -/
theorem c3_extraction_swallowed_cx :
    c3cx_oracles.llm judge_clerk_system (claim_extraction_user "d" "p") = .error "llm down" ∧
    deliberate c3cx_oracles "d" "p" "ds" "ps" = .ok "THE VERDICT" :=
  ⟨rfl, rfl⟩

/-- C3 amended: the final-judgment completion is unguarded — its failure
propagates to the caller as a raised fault (`o1`) — while a claim
extraction failure is absorbed by the bare except into the default-claims
fallback and `deliberate` still returns the verdict (`o2`). -/
theorem c3_judgment_unguarded_amended (o1 o2 : JudgeOracles)
    (db pb ds ps e v : String) (results1 results2 : List PyVal)
    (hver1 : verify_key_claims o1.search
      (extract_claims (o1.llm judge_clerk_system (claim_extraction_user db pb))) =
        .ok results1)
    (hj1 : o1.llm judge_judgment_system
      (judgment_user db pb ds ps (json_dump_v 0 (PyVal.list results1))) = .error e)
    (hex2 : o2.llm judge_clerk_system (claim_extraction_user db pb) = .error e)
    (hver2 : verify_key_claims o2.search default_claims = .ok results2)
    (hj2 : o2.llm judge_judgment_system
      (judgment_user db pb ds ps (json_dump_v 0 (PyVal.list results2))) = .ok v) :
    deliberate o1 db pb ds ps = .error (PyError.raised e) ∧
    deliberate o2 db pb ds ps = .ok v := by
  constructor
  · simp [deliberate, hver1, hj1]
  · have hclaims : extract_claims (o2.llm judge_clerk_system (claim_extraction_user db pb)) =
        default_claims := by
      rw [hex2]
      rfl
    simp [deliberate, hclaims, hver2, hj2]

/-- C3 amended oracles for the witness: extraction returns an empty JSON
list and the judgment completion raises. -/
def c3w1_oracles : JudgeOracles :=
  { llm := fun sys _ => if sys = judge_clerk_system then .ok "[]" else .error "boom",
    search := stub_search }

/-- C3 amended oracles for the witness: extraction raises and the judgment
completion succeeds. -/
def c3w2_oracles : JudgeOracles :=
  { llm := fun sys _ => if sys = judge_clerk_system then .error "boom" else .ok "V",
    search := stub_search }

/-- The verification results for the default triple under `stub_search`. -/
def default_claims_verified : List PyVal :=
  [PyVal.dict [("claim", PyVal.str "safety compliance"), ("evidence", PyVal.list [])],
   PyVal.dict [("claim", PyVal.str "cost efficiency"), ("evidence", PyVal.list [])],
   PyVal.dict [("claim", PyVal.str "historical precedent"), ("evidence", PyVal.list [])]]

/-- C3 amended, witnessed at the two stub oracle sets. -/
theorem c3_judgment_unguarded_amended_wit :
    deliberate c3w1_oracles "d" "p" "ds" "ps" = .error (PyError.raised "boom") ∧
    deliberate c3w2_oracles "d" "p" "ds" "ps" = .ok "V" :=
  c3_judgment_unguarded_amended c3w1_oracles c3w2_oracles "d" "p" "ds" "ps" "boom" "V"
    [] default_claims_verified rfl rfl rfl rfl rfl

/-! ## C9 -/

/-- C9 oracles: claim extraction answers with the JSON number `5`. -/
def c9int_oracles : JudgeOracles :=
  { llm := fun sys _ => if sys = judge_clerk_system then .ok "5" else .ok "V",
    search := stub_search }

/-- C9 oracles: claim extraction answers with the JSON string `"ab"`. -/
def c9str_oracles : JudgeOracles :=
  { llm := fun sys _ => if sys = judge_clerk_system then .ok "\"ab\"" else .ok "V",
    search := stub_search }

/-- C9: a claim-extraction response that is valid JSON but not a list of
strings bypasses the fallback: a bare number flows into
`verify_key_claims`, whose iteration raises an uncaught `TypeError`, and a
bare string is iterated character by character, fact-checking each
character — so valid-but-malformed JSON is not always safe. -/
theorem c9_valid_json_not_list :
    extract_claims (Except.ok "5") = PyVal.int 5 ∧
    extract_claims (Except.ok "5") ≠ default_claims ∧
    deliberate c9int_oracles "d" "p" "ds" "ps" =
      .error (PyError.typeError "\x27int\x27 object is not iterable") ∧
    extract_claims (Except.ok "\"ab\"") = PyVal.str "ab" ∧
    verify_key_claims stub_search (PyVal.str "ab") =
      .ok [PyVal.dict [("claim", PyVal.str "a"), ("evidence", PyVal.list [])],
           PyVal.dict [("claim", PyVal.str "b"), ("evidence", PyVal.list [])]] ∧
    deliberate c9str_oracles "d" "p" "ds" "ps" = .ok "V" := by
  refine ⟨rfl, ?_, rfl, rfl, rfl, rfl⟩
  intro h
  have hval : extract_claims (Except.ok "5") = PyVal.int 5 := rfl
  rw [hval] at h
  have h2 := congrArg (fun v => match v with | PyVal.list _ => true | _ => false) h
  simp [default_claims] at h2

/-! ## C10 -/

/-- C10: `generate_content` is total — it returns a plain string for every
input.  A missing key or a raising provider yields a string starting with
the failure marker; a successful completion is returned verbatim; and
`CaseManager.summarize_case` is exactly `generate_content` on its case
prompt with the default model. -/
theorem c10_generate_content_total (env1 env2 env3 : GenaiEnv) (p1 p2 p3 : String)
    (mn1 mn2 mn3 : Option String) (e t : String)
    (h1 : py_truthy (resolved_gemini_key env1) = false)
    (h2t : py_truthy (resolved_gemini_key env2) = true)
    (h2 : env2.gen (match mn2 with | none => "gemini-2.5-flash-lite" | some m => m) p2 =
      .error e)
    (h3t : py_truthy (resolved_gemini_key env3) = true)
    (h3 : env3.gen (match mn3 with | none => "gemini-2.5-flash-lite" | some m => m) p3 = .ok t) :
    generate_content env1 p1 mn1 =
      "Error generating content: No valid GEMINI_API_KEY found in environment variables." ∧
    generate_content env2 p2 mn2 = "Error generating content: " ++ e ∧
    generate_content env3 p3 mn3 = t ∧
    summarize_case env1 p1 = generate_content env1 (case_summary_prompt p1) none := by
  refine ⟨?_, ?_, ?_, rfl⟩
  · simp [generate_content, configure_genai, h1]
  · simp [generate_content, configure_genai, h2t, h2]
  · simp [generate_content, configure_genai, h3t, h3]

/-- C10, witnessed at a key-less environment, a raising provider and a
succeeding provider. -/
theorem c10_generate_content_total_wit :
    generate_content ⟨none, none, none, fun _ _ => .ok "x"⟩ "p" none =
      "Error generating content: No valid GEMINI_API_KEY found in environment variables." ∧
    generate_content ⟨some "k", none, none, fun _ _ => .error "quota"⟩ "p" none =
      "Error generating content: " ++ "quota" ∧
    generate_content ⟨none, some "k1", none, fun _ _ => .ok "summary"⟩ "p" (some "m") =
      "summary" ∧
    summarize_case ⟨none, none, none, fun _ _ => .ok "x"⟩ "p" =
      generate_content ⟨none, none, none, fun _ _ => .ok "x"⟩ (case_summary_prompt "p") none :=
  c10_generate_content_total
    ⟨none, none, none, fun _ _ => .ok "x"⟩
    ⟨some "k", none, none, fun _ _ => .error "quota"⟩
    ⟨none, some "k1", none, fun _ _ => .ok "summary"⟩
    "p" "p" "p" none none (some "m") "quota" "summary" rfl rfl rfl rfl rfl

/-- A successful `N`-round run determines successful runs of every shorter
length, and the `(k+1)`-st state is one `round_step` past the `k`-th. -/
theorem run_prefix_step (env : Env) (c : String) {N k : Nat} {stN : SimState}
    (h : run_simulation env c N = .ok stN) (hk : k < N) :
    ∃ stk stk1, run_simulation env c k = .ok stk ∧ run_simulation env c (k + 1) = .ok stk1 ∧
      round_step env c k stk = .ok stk1 := by
  unfold run_simulation at h ⊢
  rw [show N = (k + 1) + (N - (k + 1)) from by omega, run_rounds_add] at h
  cases hk1 : run_rounds env c (k + 1) 0 init_state with
  | error e => rw [hk1] at h; simp at h
  | ok st1 =>
    rw [run_rounds_add env c k 1 0 init_state] at hk1
    cases hk0 : run_rounds env c k 0 init_state with
    | error e => rw [hk0] at hk1; simp at hk1
    | ok stk =>
      rw [hk0, Nat.zero_add] at hk1
      simp only [] at hk1
      cases hstep : round_step env c k stk with
      | error e =>
        simp only [run_rounds, hstep] at hk1
        exact absurd hk1 (by simp)
      | ok st2 =>
        simp only [run_rounds, hstep] at hk1
        injection hk1 with hk2
        subst hk2
        exact ⟨stk, st2, rfl, rfl, hstep⟩

/-! ## C4 -/

/-- C4: every supported round count `N` produces exactly `N` prosecution
advocate statements and `N` defense advocate statements; every round runs
prosecution strategist, prosecution advocate, defense strategist, defense
advocate in that order; and every defense turn reacts to the prosecution
advocate statement of its own round. -/
theorem c4_round_structure (env : Env) (c : String) (N : Nat) (st : SimState)
    (h1 : 1 ≤ N) (h2 : N ≤ 3) (h : run_simulation env c N = .ok st) :
    count_role Role.pAdv st.trace = N ∧ count_role Role.dAdv st.trace = N ∧
    st.trace.map (fun e => (e.role, e.round)) = expected_rr N 0 ∧
    ∀ e ∈ st.trace, (e.role = Role.dStrat ∨ e.role = Role.dAdv) →
      ∃ e2, e2 ∈ st.trace ∧ e2.role = Role.pAdv ∧ e2.round = e.round ∧
        e.opponent_input = e2.output := by
  obtain ⟨es, htr, hgb, -, -, -, -⟩ := run_rounds_struct env c N 0 init_state st h
  rw [htr]
  simp only [init_state, List.nil_append]
  exact ⟨good_blocks_count _ _ _ _ _ hgb, good_blocks_count _ _ _ _ _ hgb,
    good_blocks_roles _ _ _ _ hgb, good_blocks_reacts _ _ _ _ hgb⟩

/-- C4, witnessed at the canned one-round run. -/
theorem c4_round_structure_wit :
    (1 ≤ 1 ∧ 1 ≤ 3 ∧ run_simulation stub_env "case" 1 = .ok sim1_state) ∧
    (count_role Role.pAdv sim1_state.trace = 1 ∧ count_role Role.dAdv sim1_state.trace = 1 ∧
     sim1_state.trace.map (fun e => (e.role, e.round)) = expected_rr 1 0 ∧
     ∀ e ∈ sim1_state.trace, (e.role = Role.dStrat ∨ e.role = Role.dAdv) →
       ∃ e2, e2 ∈ sim1_state.trace ∧ e2.role = Role.pAdv ∧ e2.round = e.round ∧
         e.opponent_input = e2.output) :=
  ⟨⟨Nat.le_refl 1, by omega, rfl⟩,
   c4_round_structure stub_env "case" 1 sim1_state (Nat.le_refl 1) (by omega) rfl⟩

/-! ## C5 -/

/-- C5 counterexample: in round 1 the prosecution strategist and the
prosecution advocate receive two different sentinels, and in round 3 the
prosecution agents receive the whole accumulated defense brief, not the
prior round's defense statement ("DA"). -/
theorem c5_opponent_input_cx :
    run_simulation stub_env "case" 3 = .ok sim3_state ∧
    (sim3_state.trace[0]?).map Event.opponent_input = some "Initial Opening Strategy" ∧
    (sim3_state.trace[1]?).map Event.opponent_input = some "Opening Statement" ∧
    (sim3_state.trace[0]?).map Event.opponent_input ≠
      (sim3_state.trace[1]?).map Event.opponent_input ∧
    (sim3_state.trace[7]?).map Event.output = some "DA" ∧
    (sim3_state.trace[8]?).map Event.opponent_input =
      some "\nRound 1: DA\n\nRound 2: DA\n" ∧
    (sim3_state.trace[8]?).map Event.opponent_input ≠ some "DA" := by
  refine ⟨rfl, rfl, rfl, ?_, rfl, rfl, ?_⟩ <;> decide

/-- C5 amended: in round 1 the prosecution strategist receives the
sentinel "Initial Opening Strategy" while the prosecution advocate
receives "Opening Statement"; in every later round both receive the same
input, namely the whole cumulative defense brief so far; and the defense
strategist and advocate both receive the prosecution advocate statement of
their own round — exactly the `good_blocks` shape of the trace. -/
theorem c5_opponent_input_amended (env : Env) (c : String) (N : Nat) (st : SimState)
    (h : run_simulation env c N = .ok st) : good_blocks N 0 "" st.trace := by
  obtain ⟨es, htr, hgb, -, -, -, -⟩ := run_rounds_struct env c N 0 init_state st h
  rw [htr]
  simp only [init_state, List.nil_append]
  exact hgb

/-- C5 amended, witnessed at the canned one-round run. -/
theorem c5_opponent_input_amended_wit :
    run_simulation stub_env "case" 1 = .ok sim1_state ∧
    good_blocks 1 0 "" sim1_state.trace :=
  ⟨rfl, c5_opponent_input_amended stub_env "case" 1 sim1_state rfl⟩

/-! ## C6 -/

/-- C6 counterexample: after the round-1 advocate turns the briefs are the
entries with a leading newline, `"\nRound 1: ...\n"`, not exactly
`"Round 1: ...\n"` as claimed. -/
theorem c6_brief_entry_cx :
    run_simulation stub_env "case" 1 = .ok sim1_state ∧
    sim1_state.prosecution_brief = "\nRound 1: PA\n" ∧
    sim1_state.prosecution_brief ≠ "Round 1: PA\n" ∧
    sim1_state.defense_brief = "\nRound 1: DA\n" ∧
    sim1_state.defense_brief ≠ "Round 1: DA\n" := by
  refine ⟨rfl, rfl, ?_, rfl, ?_⟩ <;> decide

/-- C6 amended: after every advocate turn the side's brief is extended
with exactly `"\nRound \x7br\x7d: \x7bstatement\x7d\n"` (leading newline
included), strategy documents with the strategist's entry, and each
document is exactly the concatenation of its own role's entries — so
strategist outputs never enter either brief. -/
theorem c6_brief_accumulation_amended (env : Env) (c : String) (N k : Nat) (stN : SimState)
    (h : run_simulation env c N = .ok stN) (hk : k < N) :
    (stN.prosecution_brief = brief_of Role.pAdv stN.trace ∧
     stN.defense_brief = brief_of Role.dAdv stN.trace ∧
     stN.prosecution_strategy_doc = brief_of Role.pStrat stN.trace ∧
     stN.defense_strategy_doc = brief_of Role.dStrat stN.trace) ∧
    ∃ stk stk1 ps pa ds da,
      run_simulation env c k = .ok stk ∧ run_simulation env c (k + 1) = .ok stk1 ∧
      stk1.prosecution_brief = stk.prosecution_brief ++ brief_entry (k + 1) pa ∧
      stk1.defense_brief = stk.defense_brief ++ brief_entry (k + 1) da ∧
      stk1.prosecution_strategy_doc = stk.prosecution_strategy_doc ++ brief_entry (k + 1) ps ∧
      stk1.defense_strategy_doc = stk.defense_strategy_doc ++ brief_entry (k + 1) ds ∧
      stk1.trace = stk.trace ++
        [Event.mk Role.pStrat (k + 1)
           (if k = 0 then "Initial Opening Strategy" else stk.defense_brief) ps,
         Event.mk Role.pAdv (k + 1)
           (if k = 0 then "Opening Statement" else stk.defense_brief) pa,
         Event.mk Role.dStrat (k + 1) pa ds,
         Event.mk Role.dAdv (k + 1) pa da] := by
  constructor
  · obtain ⟨es, htr, -, hdb, hpb, hds, hps⟩ := run_rounds_struct env c N 0 init_state stN h
    rw [htr, hdb, hpb, hds, hps]
    simp only [init_state, List.nil_append]
    exact ⟨by rw [String.empty_append], by rw [String.empty_append],
      by rw [String.empty_append], by rw [String.empty_append]⟩
  · obtain ⟨stk, stk1, h0, h1, hstep⟩ := run_prefix_step env c h hk
    obtain ⟨ps, pa, ds, da, hdb, hpb, hds, hps, htr⟩ := round_step_ok hstep
    exact ⟨stk, stk1, ps, pa, ds, da, h0, h1, hpb, hdb, hps, hds, htr⟩

/-- C6 amended, witnessed at the canned one-round run. -/
theorem c6_brief_accumulation_amended_wit :
    (run_simulation stub_env "case" 1 = .ok sim1_state ∧ 0 < 1) ∧
    ((sim1_state.prosecution_brief = brief_of Role.pAdv sim1_state.trace ∧
      sim1_state.defense_brief = brief_of Role.dAdv sim1_state.trace ∧
      sim1_state.prosecution_strategy_doc = brief_of Role.pStrat sim1_state.trace ∧
      sim1_state.defense_strategy_doc = brief_of Role.dStrat sim1_state.trace) ∧
     ∃ stk stk1 ps pa ds da,
       run_simulation stub_env "case" 0 = .ok stk ∧
       run_simulation stub_env "case" (0 + 1) = .ok stk1 ∧
       stk1.prosecution_brief = stk.prosecution_brief ++ brief_entry (0 + 1) pa ∧
       stk1.defense_brief = stk.defense_brief ++ brief_entry (0 + 1) da ∧
       stk1.prosecution_strategy_doc =
         stk.prosecution_strategy_doc ++ brief_entry (0 + 1) ps ∧
       stk1.defense_strategy_doc = stk.defense_strategy_doc ++ brief_entry (0 + 1) ds ∧
       stk1.trace = stk.trace ++
         [Event.mk Role.pStrat (0 + 1)
            (if 0 = 0 then "Initial Opening Strategy" else stk.defense_brief) ps,
          Event.mk Role.pAdv (0 + 1)
            (if 0 = 0 then "Opening Statement" else stk.defense_brief) pa,
          Event.mk Role.dStrat (0 + 1) pa ds,
          Event.mk Role.dAdv (0 + 1) pa da]) :=
  ⟨⟨rfl, Nat.zero_lt_one⟩,
   c6_brief_accumulation_amended stub_env "case" 1 0 sim1_state rfl Nat.zero_lt_one⟩

/-! ## C7 -/

/-- C7: for every `k < N` of a successful run, the briefs after round `k`
are strict prefixes of the briefs after round `k + 1`: briefs grow by
appending a non-empty entry each round and are never truncated. -/
theorem c7_briefs_monotone (env : Env) (c : String) (N k : Nat) (stN : SimState)
    (h : run_simulation env c N = .ok stN) (hk : k < N) :
    ∃ stk stk1, run_simulation env c k = .ok stk ∧ run_simulation env c (k + 1) = .ok stk1 ∧
      prefix_strict stk.prosecution_brief stk1.prosecution_brief ∧
      prefix_strict stk.defense_brief stk1.defense_brief := by
  obtain ⟨stk, stk1, h0, h1, hstep⟩ := run_prefix_step env c h hk
  obtain ⟨ps, pa, ds, da, hdb, hpb, -, -, -⟩ := round_step_ok hstep
  exact ⟨stk, stk1, h0, h1,
    ⟨brief_entry (k + 1) pa, brief_entry_ne_empty _ _, hpb⟩,
    ⟨brief_entry (k + 1) da, brief_entry_ne_empty _ _, hdb⟩⟩

/-- C7, witnessed at the canned one-round run. -/
theorem c7_briefs_monotone_wit :
    (run_simulation stub_env "case" 1 = .ok sim1_state ∧ 0 < 1) ∧
    ∃ stk stk1,
      run_simulation stub_env "case" 0 = .ok stk ∧
      run_simulation stub_env "case" (0 + 1) = .ok stk1 ∧
      prefix_strict stk.prosecution_brief stk1.prosecution_brief ∧
      prefix_strict stk.defense_brief stk1.defense_brief :=
  ⟨⟨rfl, Nat.zero_lt_one⟩,
   c7_briefs_monotone stub_env "case" 1 0 sim1_state rfl Nat.zero_lt_one⟩
